import Mathlib

/-!
Verification of the DelegateEase Gmail-delegation manager.

This file is a shallow embedding of the repository's delegation engine:

* `FormHandler` — the client-side hook `useDelegateFormHandler`
  (batch parsing `parseBatchOperations` and the submit/confirmation logic
  `handleSubmit`).
* `GmailIntegration` — `src/utils/gmail-integration.ts`
  (`createGmailClient`, `listDelegates`, `processDelegateOperation`,
  `processBatchOperations`).
* `Route` — the API route `src/app/api/delegates/route.ts`
  (`createGmailClient`, `listDelegates`, the script-based `addDelegate` /
  `removeDelegate`, and `processBatch`).
* `Scripts` — `src/createDelegate.ts` (`addDelegateAccount`) and the delete
  script (`deleteDelegateAccount`), specialised to the singleton e-mail
  arrays the route supplies, producing their stdout/stderr log lines.
* `DirectApi` — the direct-API route variant (`addDelegateDirectly`,
  `removeDelegateDirectly`).

Remote interaction (token acquisition, profile probe, delegate
list/create/delete) is modelled by an environment `OpEnv` that fixes the
outcome of each remote primitive for one processed request, and every
function additionally returns the trace of remote calls it issued, so that
"no mutating call is issued" claims are provable.  File-system plumbing
(temp-file save/read errors) is modelled by the `saveErr`/`readErr`/
`keyReadOk`/`paramsWriteErr` fields; temp-file cleanup (which cannot change
a result in the non-exceptional fs model) is elided.  JavaScript strings
are Lean `String`s; `undefined`-able values are `Option`s; the JS
`String.prototype.includes` substring test is modelled as list-infix
containment on the character data.
-/

/-! ## Character-list utilities (JS `split`, `trim`, `includes`) -/

/-- JS `s.split(sep)` on character lists: always returns at least one chunk;
separators are not included in the chunks. -/
def splitChar (sep : Char) : List Char → List (List Char)
  | [] => [[]]
  | c :: cs =>
    match splitChar sep cs with
    | [] => [[]]
    | h :: t => if c = sep then [] :: h :: t else (c :: h) :: t

/-- JS `s.trim()` on character lists (whitespace stripped from both ends). -/
def trimChars (l : List Char) : List Char :=
  ((l.dropWhile Char.isWhitespace).reverse.dropWhile Char.isWhitespace).reverse

/-- JS `hay.includes(needle)`: substring containment. -/
def containsSub (needle hay : String) : Bool :=
  decide (needle.data <:+: hay.data)

theorem splitChar_ne_nil (sep : Char) (l : List Char) : splitChar sep l ≠ [] := by
  induction l with
  | nil => simp [splitChar]
  | cons c cs ih =>
    unfold splitChar
    cases h : splitChar sep cs with
    | nil => simp
    | cons hd tl => by_cases hc : c = sep <;> simp [hc]

theorem splitChar_head_leads (sep : Char) (l : List Char) :
    ∀ h t, splitChar sep l = h :: t → h <+: l := by
  induction l with
  | nil =>
    intro h t e
    simp [splitChar] at e
    obtain ⟨e1, _⟩ := e
    subst e1
    exact List.nil_prefix
  | cons c cs ih =>
    intro h t e
    unfold splitChar at e
    cases hs : splitChar sep cs with
    | nil => exact absurd hs (splitChar_ne_nil sep cs)
    | cons hd tl =>
      rw [hs] at e
      by_cases hc : c = sep
      · simp [hc] at e
        obtain ⟨e1, _⟩ := e
        subst e1
        exact List.nil_prefix
      · simp [hc] at e
        obtain ⟨e1, _⟩ := e
        subst e1
        rcases ih hd tl hs with ⟨w, hw⟩
        exact ⟨w, by rw [List.cons_append, hw]⟩

theorem splitChar_chunk_within (sep : Char) (l : List Char) :
    ∀ chunk ∈ splitChar sep l, chunk <:+: l := by
  induction l with
  | nil =>
    intro chunk hc
    simp [splitChar] at hc
    simp [hc]
  | cons c cs ih =>
    intro chunk hc
    unfold splitChar at hc
    cases hs : splitChar sep cs with
    | nil => exact absurd hs (splitChar_ne_nil sep cs)
    | cons hd tl =>
      rw [hs] at hc
      by_cases hcs : c = sep
      · simp [hcs] at hc
        rcases hc with h1 | h1 | h1
        · simp [h1]
        · rw [h1]
          have := ih hd (by rw [hs]; exact List.mem_cons_self hd tl)
          exact List.infix_cons this
        · have := ih chunk (by rw [hs]; exact List.mem_cons_of_mem hd h1)
          exact List.infix_cons this
      · simp [hcs] at hc
        rcases hc with h1 | h1
        · rcases splitChar_head_leads sep cs hd tl hs with ⟨w, hw⟩
          refine ⟨[], w, ?_⟩
          rw [h1]
          simp [hw]
        · have := ih chunk (by rw [hs]; exact List.mem_cons_of_mem hd h1)
          exact List.infix_cons this

theorem trimChars_within (l : List Char) : trimChars l <:+: l := by
  have hsuf : l.dropWhile Char.isWhitespace <:+ l := List.dropWhile_suffix _
  have hu : ((l.dropWhile Char.isWhitespace).reverse.dropWhile Char.isWhitespace)
      <:+ (l.dropWhile Char.isWhitespace).reverse := List.dropWhile_suffix _
  rcases hu with ⟨w, hw⟩
  have hpre : trimChars l <+: l.dropWhile Char.isWhitespace := by
    refine ⟨w.reverse, ?_⟩
    have h2 := congrArg List.reverse hw
    simpa [trimChars, List.reverse_append] using h2
  rcases hpre with ⟨t2, ht2⟩
  rcases hsuf with ⟨s1, hs1⟩
  exact ⟨s1, t2, by rw [List.append_assoc, ht2, hs1]⟩

theorem trimChars_ne_nil_of_mem (l : List Char) (c : Char)
    (hc : c ∈ l) (hw : c.isWhitespace = false) : trimChars l ≠ [] := by
  intro hnil
  unfold trimChars at hnil
  rw [List.reverse_eq_nil_iff] at hnil
  rw [List.dropWhile_eq_nil_iff] at hnil
  have hcs : c ∈ l.dropWhile Char.isWhitespace := by
    have hsplit := List.takeWhile_append_dropWhile (p := Char.isWhitespace) (l := l)
    rw [← hsplit] at hc
    rcases List.mem_append.1 hc with h1 | h1
    · exact absurd (List.mem_takeWhile_imp h1) (by simp [hw])
    · exact h1
  have := hnil c (List.mem_reverse.2 hcs)
  simp [hw] at this

theorem within_trans {a b c : List Char} (h1 : a <:+: b) (h2 : b <:+: c) : a <:+: c :=
  List.IsInfix.trans h1 h2

/-! ## Batch parser and submit handler (`useDelegateFormHandler`) -/

namespace FormHandler

/-- One parsed batch line, as produced by `parseBatchOperations` in the hook:
`const [op, user, delegate] = line.split(",").map((item) => item.trim())`.
The first field is always present (`split` returns at least one chunk);
the second and third are `undefined` when the line has fewer commas;
any further fields are silently dropped by the destructuring. -/
structure BatchRequest where
  operation : String
  userEmail : Option String
  delegateEmail : Option String
deriving DecidableEq

/-- Parse a single line of the batch text: split on commas, trim each field,
destructure the first three fields. -/
def lineToRequest (line : List Char) : BatchRequest :=
  let fields := (splitChar ',' line).map trimChars
  { operation := String.mk (fields.headD [])
    userEmail := (fields.get? 1).map String.mk
    delegateEmail := (fields.get? 2).map String.mk }

/-- `parseBatchOperations` from the hook: split the batch text into lines,
keep lines whose trim is non-empty, and parse each kept line.  The function
is total: it performs no field-count or kind validation and cannot fail. -/
def parseBatchOperations (batch : String) : List BatchRequest :=
  ((splitChar '\n' batch.data).filter (fun l => (trimChars l).isEmpty = false)).map
    lineToRequest

theorem parse_operation_within (b : String) (r : BatchRequest)
    (hr : r ∈ parseBatchOperations b) : r.operation.data <:+: b.data := by
  unfold parseBatchOperations at hr
  rw [List.mem_map] at hr
  obtain ⟨line, hline, heq⟩ := hr
  rw [List.mem_filter] at hline
  obtain ⟨hmem, _⟩ := hline
  cases hs : splitChar ',' line with
  | nil => exact absurd hs (splitChar_ne_nil ',' line)
  | cons c0 rest =>
    have hop : r.operation.data = trimChars c0 := by
      rw [← heq]
      simp [lineToRequest, hs]
    rw [hop]
    have h1 : trimChars c0 <:+: c0 := trimChars_within c0
    have h2 : c0 <:+: line :=
      splitChar_chunk_within ',' line c0 (by rw [hs]; exact List.mem_cons_self c0 rest)
    have h3 : line <:+: b.data := splitChar_chunk_within '\n' b.data line hmem
    exact within_trans (within_trans h1 h2) h3

theorem parse_remove_includes (b : String) (r : BatchRequest)
    (hr : r ∈ parseBatchOperations b) (hop : r.operation = "remove") :
    containsSub "remove" b = true := by
  have h := parse_operation_within b r hr
  rw [hop] at h
  exact decide_eq_true h

theorem parse_remove_not_blank (b : String) (r : BatchRequest)
    (hr : r ∈ parseBatchOperations b) (hop : r.operation = "remove") :
    (trimChars b.data).isEmpty = false := by
  have h := parse_operation_within b r hr
  rw [hop] at h
  rcases h with ⟨s, t, hst⟩
  have hrmem : 'r' ∈ b.data := by
    rw [← hst]
    have hrm : 'r' ∈ "remove".data := by decide
    exact List.mem_append.2 (Or.inl (List.mem_append.2 (Or.inr hrm)))
  have := trimChars_ne_nil_of_mem b.data 'r' hrmem (by decide)
  cases he : trimChars b.data with
  | nil => exact absurd he this
  | cons x xs => simp [he]

/-- Options supplied to the hook: the authentication method string and
whether a service-account file is available. -/
structure HandlerOptions where
  authMethod : String
  hasServiceAccountFile : Bool
deriving DecidableEq

/-- The hook's mutable form state at the moment submit is pressed. -/
structure FormState where
  operation : String
  userEmail : String
  delegateEmail : String
  batchMode : Bool
  batchEmails : String
  showConfirmation : Bool
deriving DecidableEq

/-- The form-data payload handed to `onSubmit` (and hence POSTed to the
batch endpoint) when a submission goes through. -/
structure SubmitPayload where
  authMethod : String
  operation : String
  operations : Option (List BatchRequest)
  userEmail : Option String
  delegateEmail : Option String
deriving DecidableEq

/-- Outcome of one `handleSubmit` invocation: an early validation toast
(nothing submitted), the confirmation dialog (nothing submitted, zero
remote calls), or a submission carrying the payload. -/
inductive SubmitOutcome where
  | blocked (title : String)
  | awaitingConfirmation
  | submitted (payload : SubmitPayload)
deriving DecidableEq

/-- `handleSubmit` from the hook, as a pure function of the options and the
form state.  Mirrors the source's guard order: missing auth method, missing
mailbox email (single mode), missing delegate email (single add/remove),
blank batch text, then the destructive-operation confirmation gate
(`operation === "remove" || (batchMode && batchEmails.includes("remove"))`
with `!showConfirmation`), then the service-account check, then the actual
submission.  Remote calls happen only after a `submitted` payload reaches
the API route, so `awaitingConfirmation` and `blocked` outcomes issue none. -/
def handleSubmit (opts : HandlerOptions) (st : FormState) : SubmitOutcome :=
  if opts.authMethod = "" then .blocked "Authentication required"
  else if st.batchMode = false ∧ st.userEmail = "" then .blocked "Missing information"
  else if st.batchMode = false ∧ (st.operation = "add" ∨ st.operation = "remove") ∧
      st.delegateEmail = "" then .blocked "Missing information"
  else if st.batchMode = true ∧ (trimChars st.batchEmails.data).isEmpty = true then
    .blocked "Missing information"
  else if (st.operation = "remove" ∨
      (st.batchMode = true ∧ containsSub "remove" st.batchEmails = true)) ∧
      st.showConfirmation = false then .awaitingConfirmation
  else if opts.authMethod = "service-account" ∧ opts.hasServiceAccountFile = true then
    if st.batchMode = true then
      .submitted { authMethod := opts.authMethod, operation := st.operation,
                   operations := some (parseBatchOperations st.batchEmails),
                   userEmail := none, delegateEmail := none }
    else
      .submitted { authMethod := opts.authMethod, operation := st.operation,
                   operations := none, userEmail := some st.userEmail,
                   delegateEmail :=
                     if st.delegateEmail = "" then none else some st.delegateEmail }
  else .blocked "Missing service account"

end FormHandler

/-! ## Remote-service model -/

/-- A delegate record as returned by the remote list endpoint
(`delegateEmail` and `verificationStatus` are both nullable in the API). -/
structure Delegate where
  delegateEmail : Option String
  verificationStatus : Option String
deriving DecidableEq

/-- JS `x || undefined`: the empty string is falsy and becomes `undefined`. -/
def normStr : Option String → Option String
  | some s => if s = "" then none else some s
  | none => none

/-- `utils/gmail-integration.ts` maps each listed delegate through
`delegateEmail: delegate.delegateEmail || undefined` (and likewise for
`verificationStatus`). -/
def normDelegate (d : Delegate) : Delegate :=
  { delegateEmail := normStr d.delegateEmail
    verificationStatus := normStr d.verificationStatus }

/-- Outcome of the remote `users.settings.delegates.list` call:
either the current delegate list or a thrown error with its message. -/
inductive ListOutcome where
  | ok (ds : List Delegate)
  | err (msg : String)
deriving DecidableEq

/-- Environment fixing the outcome of every fallible step while one
request is processed: temp-file save (`saveErr`), service-account
read/parse (`readErr`), token acquisition (`tokenOk`), the `getProfile`
probe (`profileOk`), the delegate list call (`listOutcome`), the create
and delete calls (`createErr`/`deleteErr`, `none` = success, `some m` =
throws with message `m`), the script-side key-file read (`keyReadOk`),
the params-file write (`paramsWriteErr`) and the script launch itself
(`scriptLaunchErr`). -/
structure OpEnv where
  saveErr : Option String
  readErr : Option String
  tokenOk : Bool
  profileOk : Bool
  listOutcome : ListOutcome
  createErr : Option String
  deleteErr : Option String
  keyReadOk : Bool
  paramsWriteErr : Option String
  scriptLaunchErr : Option String
deriving DecidableEq

/-- One remote-service interaction, recorded in the order issued. -/
inductive RemoteCall where
  | getToken
  | getProfile
  | listCall
  | createCall (delegateEmail : Option String)
  | deleteCall (delegateEmail : Option String)
deriving DecidableEq

/-- A call that mutates remote state (delegate create or delete). -/
def RemoteCall.isMutating : RemoteCall → Bool
  | .createCall _ => true
  | .deleteCall _ => true
  | _ => false

/-- A delegate-delete call. -/
def RemoteCall.isDelete : RemoteCall → Bool
  | .deleteCall _ => true
  | _ => false

/-- A delegate-create call. -/
def RemoteCall.isCreate : RemoteCall → Bool
  | .createCall _ => true
  | _ => false

/-- JS string interpolation of a possibly-undefined value. -/
def optStr (o : Option String) : String := o.getD "undefined"

/-! ## `src/utils/gmail-integration.ts` -/

namespace GmailIntegration

/-- `createGmailClient`: configures a JWT, then eagerly verifies the
credential with `auth.getAccessToken()` and `gmail.users.getProfile`;
returns `null` (here `none`) if either probe fails.  Also returns the
probe calls issued. -/
def createGmailClient (env : OpEnv) : Option Unit × List RemoteCall :=
  if env.tokenOk then
    if env.profileOk then (some (), [.getToken, .getProfile])
    else (none, [.getToken, .getProfile])
  else (none, [.getToken])

/-- Result record for the utils operations (`types/delegates.ts`
`OperationResult`): `userEmail`/`delegateEmail`/`delegates`/`details`
are optional. -/
structure OperationResult where
  success : Bool
  userEmail : Option String
  delegateEmail : Option String
  operation : String
  message : String
  delegates : Option (List Delegate)
  details : Option String
deriving DecidableEq

/-- `listDelegates`: calls the remote list endpoint; on success maps each
delegate through `|| undefined` normalisation; on error returns a failed
result carrying `error.message || "Error listing delegates"`.  The result
has `operation: "list"` and no `userEmail`/`delegateEmail`. -/
def listDelegates (env : OpEnv) : OperationResult × List RemoteCall :=
  match env.listOutcome with
  | .ok ds =>
    ({ success := true, userEmail := none, delegateEmail := none, operation := "list",
       message := "Delegates retrieved successfully",
       delegates := some (ds.map normDelegate), details := none }, [.listCall])
  | .err m =>
    ({ success := false, userEmail := none, delegateEmail := none, operation := "list",
       message := if m = "" then "Error listing delegates" else m,
       delegates := none, details := some m }, [.listCall])

/-- The outer `catch` of `processDelegateOperation`: a failed result with
`error.message || "An error occurred during the operation"`. -/
def catchResult (operation userEmail : String) (delegateEmail : Option String)
    (m : String) : OperationResult :=
  { success := false, userEmail := some userEmail, delegateEmail := delegateEmail,
    operation := operation,
    message := if m = "" then "An error occurred during the operation" else m,
    delegates := none, details := some m }

/-- `processDelegateOperation`: throws if no service-account file, saves and
reads the file, creates the client (probing eagerly), dispatches on the
operation; for add/remove it first lists the delegates (returning the
failed list result unchanged if the list call fails), applies the
existence guard, then issues the mutating call; every error is caught and
converted to a failed result.  Also returns the remote-call trace. -/
def processDelegateOperation (env : OpEnv) (operation userEmail : String)
    (delegateEmail : Option String) (hasServiceAccountFile : Bool) :
    OperationResult × List RemoteCall :=
  if hasServiceAccountFile = false then
    (catchResult operation userEmail delegateEmail "Service account file is required", [])
  else match env.saveErr with
  | some m => (catchResult operation userEmail delegateEmail m, [])
  | none => match env.readErr with
    | some m => (catchResult operation userEmail delegateEmail m, [])
    | none =>
      match createGmailClient env with
      | (none, pcs) =>
        ({ success := false, userEmail := some userEmail, delegateEmail := delegateEmail,
           operation := operation, message := "Failed to create Gmail client",
           delegates := none, details := none }, pcs)
      | (some _, pcs) =>
        if operation = "list" then
          let (r, cs) := listDelegates env
          (r, pcs ++ cs)
        else
          let (listResult, cs) := listDelegates env
          if listResult.success = false then (listResult, pcs ++ cs)
          else
            let delegateExists :=
              (listResult.delegates.getD []).any
                (fun d => d.delegateEmail == delegateEmail)
            if operation = "add" then
              if delegateExists then
                ({ success := false, userEmail := some userEmail,
                   delegateEmail := delegateEmail, operation := operation,
                   message := "Delegate " ++ optStr delegateEmail ++ " already exists",
                   delegates := none, details := none }, pcs ++ cs)
              else
                match env.createErr with
                | none =>
                  ({ success := true, userEmail := some userEmail,
                     delegateEmail := delegateEmail, operation := operation,
                     message :=
                       "Delegate " ++ optStr delegateEmail ++ " added successfully",
                     delegates := none, details := none },
                   pcs ++ cs ++ [.createCall delegateEmail])
                | some m =>
                  (catchResult operation userEmail delegateEmail m,
                   pcs ++ cs ++ [.createCall delegateEmail])
            else if operation = "remove" then
              if delegateExists = false then
                ({ success := false, userEmail := some userEmail,
                   delegateEmail := delegateEmail, operation := operation,
                   message := "Delegate " ++ optStr delegateEmail ++ " does not exist",
                   delegates := none, details := none }, pcs ++ cs)
              else
                match env.deleteErr with
                | none =>
                  ({ success := true, userEmail := some userEmail,
                     delegateEmail := delegateEmail, operation := operation,
                     message :=
                       "Delegate " ++ optStr delegateEmail ++ " removed successfully",
                     delegates := none, details := none },
                   pcs ++ cs ++ [.deleteCall delegateEmail])
                | some m =>
                  (catchResult operation userEmail delegateEmail m,
                   pcs ++ cs ++ [.deleteCall delegateEmail])
            else
              ({ success := false, userEmail := some userEmail,
                 delegateEmail := delegateEmail, operation := operation,
                 message := "Invalid operation: " ++ operation,
                 delegates := none, details := none }, pcs ++ cs)

/-- One batch operation as supplied to `processBatchOperations`
(`userEmail` is required by the TypeScript type, `delegateEmail` optional). -/
structure BatchOp where
  operation : String
  userEmail : String
  delegateEmail : Option String
deriving DecidableEq

/-- The per-item failure produced when no service-account file is supplied. -/
def saMissingResult (op : BatchOp) : OperationResult :=
  { success := false, userEmail := some op.userEmail,
    delegateEmail := op.delegateEmail, operation := op.operation,
    message := "Service account file is required", delegates := none, details := none }

/-- The sequential loop of `processBatchOperations`: one
`processDelegateOperation` per input, in order, collecting results and
traces.  `i` indexes the environment of the current item. -/
def processBatchGo (envs : Nat → OpEnv) (i : Nat) :
    List BatchOp → List OperationResult × List RemoteCall
  | [] => ([], [])
  | op :: rest =>
    let r := processDelegateOperation (envs i) op.operation op.userEmail
      op.delegateEmail true
    let rec' := processBatchGo envs (i + 1) rest
    (r.1 :: rec'.1, r.2 ++ rec'.2)

/-- `processBatchOperations`: short-circuits to per-item failures when no
service-account file is supplied, otherwise runs the sequential loop. -/
def processBatchOperations (envs : Nat → OpEnv) (ops : List BatchOp)
    (hasServiceAccountFile : Bool) : List OperationResult × List RemoteCall :=
  if hasServiceAccountFile = false then (ops.map saMissingResult, [])
  else processBatchGo envs 0 ops

theorem processBatchGo_length (envs : Nat → OpEnv) :
    ∀ (ops : List BatchOp) (i : Nat), (processBatchGo envs i ops).1.length = ops.length := by
  intro ops
  induction ops with
  | nil => intro i; simp [processBatchGo]
  | cons op rest ih => intro i; simp [processBatchGo, ih]

theorem processBatchGo_get (envs : Nat → OpEnv) :
    ∀ (ops : List BatchOp) (i k : Nat) (hk : k < ops.length),
      (processBatchGo envs i ops).1[k]? =
        some ((processDelegateOperation (envs (i + k)) (ops.get ⟨k, hk⟩).operation
          (ops.get ⟨k, hk⟩).userEmail (ops.get ⟨k, hk⟩).delegateEmail true).1) := by
  intro ops
  induction ops with
  | nil => intro i k hk; simp at hk
  | cons op rest ih =>
    intro i k hk
    cases k with
    | zero => simp [processBatchGo]
    | succ k' =>
      have hk' : k' < rest.length := by simpa using hk
      have := ih (i + 1) k' hk'
      have hidx : i + 1 + k' = i + (k' + 1) := by omega
      rw [hidx] at this
      simpa [processBatchGo] using this

end GmailIntegration

/-! ## `src/app/api/delegates/route.ts` and the generated scripts -/

namespace Route

/-- The route's own `createGmailClient`: reads and parses the
service-account file and constructs the JWT client.  Unlike the utils
version it performs no token or profile probe — construction succeeds
whenever the file parses, regardless of credential validity, and issues
no remote call. -/
def createGmailClient (env : OpEnv) : Option Unit × List RemoteCall :=
  match env.readErr with
  | none => (some (), [])
  | some _ => (none, [])

/-- Result of the route's `listDelegates` (raw delegates, no
normalisation). -/
structure ListResult where
  success : Bool
  delegates : Option (List Delegate)
  message : Option String
  error : Option String
deriving DecidableEq

/-- The route's `listDelegates`: returns `{success, delegates}` or
`{success: false, message, error}`.  `src/unnamed/part_002` contains a
verbatim copy of this function, so `DirectApi` reuses this definition. -/
def listDelegates (env : OpEnv) : ListResult × List RemoteCall :=
  match env.listOutcome with
  | .ok ds =>
    ({ success := true, delegates := some ds, message := none, error := none },
     [.listCall])
  | .err m =>
    ({ success := false, delegates := none,
       message := some (if m = "" then "Error listing delegates" else m),
       error := some m }, [.listCall])

end Route

namespace Scripts

/-- Stdout and stderr lines plus remote calls of one script run. -/
structure ScriptRun where
  stdout : List String
  stderr : List String
  calls : List RemoteCall
deriving DecidableEq

/-- `addDelegateAccount` from `src/createDelegate.ts`, specialised to the
singleton e-mail arrays the route writes into the params file.  Produces
the `console.log` lines (stdout), the `console.error` lines (stderr, with
opaque error payloads elided) and the remote calls.  Uses the utils
`createGmailClient` (with its probes) and the utils `listDelegates`; when
the list call fails the `delegateExists` check is falsy and the script
proceeds to issue the create call. -/
def addScript (env : OpEnv) (u d : String) : ScriptRun :=
  if env.keyReadOk = false then
    { stdout := ["Loading service account key file..."]
      stderr := ["Error adding user accounts as delegatees:", "Error stack:"]
      calls := [] }
  else
    let base := ["Loading service account key file...",
                 "Service account key file loaded successfully.",
                 "Creating Gmail client for user: " ++ u ++ "..."]
    match GmailIntegration.createGmailClient env with
    | (none, pcs) =>
      { stdout := base
        stderr := [if env.tokenOk then "Error accessing Gmail API:"
                   else "Error obtaining access token:",
                   "Failed to create Gmail client for " ++ u ++ ". Skipping."]
        calls := pcs }
    | (some _, pcs) =>
      let base2 := base ++ ["Gmail client created successfully.",
        "Checking if delegate (" ++ d ++ ") already exists for user: " ++ u ++ "..."]
      match env.listOutcome with
      | .err _ =>
        let base3 := base2 ++
          ["Attempting to create delegate (" ++ d ++ ") for user: " ++ u ++ "..."]
        match env.createErr with
        | none =>
          { stdout := base3 ++ ["Delegate " ++ d ++ " added successfully to " ++ u ++ ".",
                                "Response:"]
            stderr := ["Error listing delegates:"]
            calls := pcs ++ [.listCall, .createCall (some d)] }
        | some _ =>
          { stdout := base3
            stderr := ["Error listing delegates:",
                       "Error adding delegate (" ++ d ++ ") to " ++ u ++ ":"]
            calls := pcs ++ [.listCall, .createCall (some d)] }
      | .ok ds =>
        if (ds.map normDelegate).any (fun x => x.delegateEmail == some d) then
          { stdout := base2 ++
              ["Delegate " ++ d ++ " already exists for " ++ u ++ ". Skipping."]
            stderr := []
            calls := pcs ++ [.listCall] }
        else
          let base3 := base2 ++
            ["Attempting to create delegate (" ++ d ++ ") for user: " ++ u ++ "..."]
          match env.createErr with
          | none =>
            { stdout := base3 ++
                ["Delegate " ++ d ++ " added successfully to " ++ u ++ ".", "Response:"]
              stderr := []
              calls := pcs ++ [.listCall, .createCall (some d)] }
          | some _ =>
            { stdout := base3
              stderr := ["Error adding delegate (" ++ d ++ ") to " ++ u ++ ":"]
              calls := pcs ++ [.listCall, .createCall (some d)] }

/-- `deleteDelegateAccount` from the delete script, specialised the same
way.  When the list call fails the `delegateExists` check is falsy and the
script logs "does not exist ... Skipping" and issues no delete call. -/
def deleteScript (env : OpEnv) (u d : String) : ScriptRun :=
  if env.keyReadOk = false then
    { stdout := ["Loading service account key file..."]
      stderr := ["Error deleting user accounts as delegates:", "Error stack:"]
      calls := [] }
  else
    let base := ["Loading service account key file...",
                 "Service account key file loaded successfully.",
                 "Creating Gmail client for user: " ++ u ++ "..."]
    match GmailIntegration.createGmailClient env with
    | (none, pcs) =>
      { stdout := base
        stderr := [if env.tokenOk then "Error accessing Gmail API:"
                   else "Error obtaining access token:",
                   "Failed to create Gmail client for " ++ u ++ ". Skipping."]
        calls := pcs }
    | (some _, pcs) =>
      let base2 := base ++ ["Gmail client created successfully.",
        "Checking if delegate (" ++ d ++ ") exists for user: " ++ u ++ "..."]
      match env.listOutcome with
      | .err _ =>
        { stdout := base2 ++
            ["Delegate " ++ d ++ " does not exist for " ++ u ++ ". Skipping."]
          stderr := ["Error listing delegates:"]
          calls := pcs ++ [.listCall] }
      | .ok ds =>
        if (ds.map normDelegate).any (fun x => x.delegateEmail == some d) then
          let base3 := base2 ++
            ["Attempting to delete delegate (" ++ d ++ ") for user: " ++ u ++ "..."]
          match env.deleteErr with
          | none =>
            { stdout := base3 ++
                ["Delegate " ++ d ++ " deleted successfully from " ++ u ++ "."]
              stderr := []
              calls := pcs ++ [.listCall, .deleteCall (some d)] }
          | some _ =>
            { stdout := base3
              stderr := ["Error deleting delegate (" ++ d ++ ") from " ++ u ++ ":"]
              calls := pcs ++ [.listCall, .deleteCall (some d)] }
        else
          { stdout := base2 ++
              ["Delegate " ++ d ++ " does not exist for " ++ u ++ ". Skipping."]
            stderr := []
            calls := pcs ++ [.listCall] }

end Scripts

namespace Route

/-- Result record of the script-based `addDelegate`/`removeDelegate`. -/
structure ScriptOpResult where
  success : Bool
  message : String
  rawOutput : Option (List String)
  error : Option String
deriving DecidableEq

/-- Does any captured output line contain the literal substring? -/
def outputHas (needle : String) (lines : List String) : Bool :=
  lines.any (fun l => containsSub needle l)

/-- The route's handling of a finished script run (`addDelegate`): if
stderr is non-empty and free of "ExperimentalWarning", fail with "Error
executing script"; otherwise success is decided by the absence of the
substring "Error" anywhere in stdout. -/
def addScriptOutcome (u d : String) (run : Scripts.ScriptRun) : ScriptOpResult :=
  if run.stderr.isEmpty = false ∧ outputHas "ExperimentalWarning" run.stderr = false then
    { success := false, message := "Error executing script",
      rawOutput := some run.stderr, error := none }
  else
    let ok := !(outputHas "Error" run.stdout)
    { success := ok,
      message := if ok then "Delegate " ++ d ++ " added successfully to " ++ u ++ "."
                 else "Failed to add delegate. Check the details for more information.",
      rawOutput := some run.stdout, error := none }

/-- The route's handling of a finished delete-script run (`removeDelegate`). -/
def removeScriptOutcome (u d : String) (run : Scripts.ScriptRun) : ScriptOpResult :=
  if run.stderr.isEmpty = false ∧ outputHas "ExperimentalWarning" run.stderr = false then
    { success := false, message := "Error executing script",
      rawOutput := some run.stderr, error := none }
  else
    let ok := !(outputHas "Error" run.stdout)
    { success := ok,
      message := if ok then "Delegate " ++ d ++ " removed successfully from " ++ u ++ "."
                 else
                   "Failed to remove delegate. Check the details for more information.",
      rawOutput := some run.stdout, error := none }

/-- A script run whose params file lacked a user or delegate e-mail: the
script's top-level catch logs to stderr before any work is done. -/
def missingParamRun (catchLine : String) : Scripts.ScriptRun :=
  { stdout := [], stderr := [catchLine, "Error stack:"], calls := [] }

/-- `addDelegate` from the route: write the params file, execute the
create-delegate script with `npx ts-node`, then interpret its output.
Params-file write errors and script-launch errors are caught and become
failed results (`error.message || "Error adding delegate"`). -/
def addDelegate (env : OpEnv) (u d : Option String) :
    ScriptOpResult × List RemoteCall :=
  match env.paramsWriteErr with
  | some m =>
    ({ success := false, message := if m = "" then "Error adding delegate" else m,
       rawOutput := none, error := some m }, [])
  | none =>
    match env.scriptLaunchErr with
    | some m =>
      ({ success := false, message := if m = "" then "Error adding delegate" else m,
         rawOutput := none, error := some m }, [])
    | none =>
      match u, d with
      | some u', some d' =>
        let run := Scripts.addScript env u' d'
        (addScriptOutcome u' d' run, run.calls)
      | _, _ =>
        let run := missingParamRun "Error adding user accounts as delegatees:"
        (addScriptOutcome (optStr u) (optStr d) run, run.calls)

/-- `removeDelegate` from the route, symmetric to `addDelegate`. -/
def removeDelegate (env : OpEnv) (u d : Option String) :
    ScriptOpResult × List RemoteCall :=
  match env.paramsWriteErr with
  | some m =>
    ({ success := false, message := if m = "" then "Error removing delegate" else m,
       rawOutput := none, error := some m }, [])
  | none =>
    match env.scriptLaunchErr with
    | some m =>
      ({ success := false, message := if m = "" then "Error removing delegate" else m,
         rawOutput := none, error := some m }, [])
    | none =>
      match u, d with
      | some u', some d' =>
        let run := Scripts.deleteScript env u' d'
        (removeScriptOutcome u' d' run, run.calls)
      | _, _ =>
        let run := missingParamRun "Error deleting user accounts as delegates:"
        (removeScriptOutcome (optStr u) (optStr d) run, run.calls)

/-- One entry of the route's batch result array.  Fields not set by a
branch are `none`. -/
structure RouteResult where
  success : Bool
  userEmail : Option String
  delegateEmail : Option String
  operation : String
  message : Option String
  delegates : Option (List Delegate)
  rawOutput : Option (List String)
  error : Option String
deriving DecidableEq

/-- The per-item failure entry pushed for an unrecognised operation kind. -/
def invalidOpResult (op : FormHandler.BatchRequest) : RouteResult :=
  { success := false, userEmail := op.userEmail, delegateEmail := op.delegateEmail,
    operation := op.operation, message := some ("Invalid operation: " ++ op.operation),
    delegates := none, rawOutput := none, error := none }

/-- One iteration of the route's `processBatch` loop: dispatch on the
operation kind, always pushing exactly one result. -/
def processOne (env : OpEnv) (op : FormHandler.BatchRequest) :
    RouteResult × List RemoteCall :=
  if op.operation = "list" then
    match createGmailClient env with
    | (none, pcs) =>
      ({ success := false, userEmail := op.userEmail, delegateEmail := none,
         operation := "list", message := some "Failed to create Gmail client",
         delegates := none, rawOutput := none, error := none }, pcs)
    | (some _, pcs) =>
      let (lr, lcs) := listDelegates env
      ({ success := lr.success, userEmail := op.userEmail, delegateEmail := none,
         operation := "list",
         message := some (if lr.success then "Delegates retrieved successfully"
                          else (lr.message.getD "")),
         delegates := lr.delegates, rawOutput := none, error := lr.error },
       pcs ++ lcs)
  else if op.operation = "add" then
    let (ar, cs) := addDelegate env op.userEmail op.delegateEmail
    ({ success := ar.success, userEmail := op.userEmail,
       delegateEmail := op.delegateEmail, operation := "add",
       message := some ar.message, delegates := none, rawOutput := ar.rawOutput,
       error := ar.error }, cs)
  else if op.operation = "remove" then
    let (rr, cs) := removeDelegate env op.userEmail op.delegateEmail
    ({ success := rr.success, userEmail := op.userEmail,
       delegateEmail := op.delegateEmail, operation := "remove",
       message := some rr.message, delegates := none, rawOutput := rr.rawOutput,
       error := rr.error }, cs)
  else (invalidOpResult op, [])

/-- The sequential loop of the route's `processBatch`. -/
def processBatchGo (envs : Nat → OpEnv) (i : Nat) :
    List FormHandler.BatchRequest → List RouteResult × List RemoteCall
  | [] => ([], [])
  | op :: rest =>
    let r := processOne (envs i) op
    let rec' := processBatchGo envs (i + 1) rest
    (r.1 :: rec'.1, r.2 ++ rec'.2)

/-- `processBatch` from the route: processes the parsed operations
sequentially, one result per input. -/
def processBatch (envs : Nat → OpEnv) (ops : List FormHandler.BatchRequest) :
    List RouteResult × List RemoteCall :=
  processBatchGo envs 0 ops

theorem routeBatchGo_length (envs : Nat → OpEnv) :
    ∀ (ops : List FormHandler.BatchRequest) (i : Nat),
      (processBatchGo envs i ops).1.length = ops.length := by
  intro ops
  induction ops with
  | nil => intro i; simp [processBatchGo]
  | cons op rest ih => intro i; simp [processBatchGo, ih]

theorem routeBatchGo_get (envs : Nat → OpEnv) :
    ∀ (ops : List FormHandler.BatchRequest) (i k : Nat) (hk : k < ops.length),
      (processBatchGo envs i ops).1[k]? =
        some ((processOne (envs (i + k)) (ops.get ⟨k, hk⟩)).1) := by
  intro ops
  induction ops with
  | nil => intro i k hk; simp at hk
  | cons op rest ih =>
    intro i k hk
    cases k with
    | zero => simp [processBatchGo]
    | succ k' =>
      have hk' : k' < rest.length := by simpa using hk
      have := ih (i + 1) k' hk'
      have hidx : i + 1 + k' = i + (k' + 1) := by omega
      rw [hidx] at this
      simpa [processBatchGo] using this

end Route

/-! ## Direct-API route (`src/unnamed/part_002`) -/

namespace DirectApi

/-- Result record of `addDelegateDirectly`/`removeDelegateDirectly`. -/
structure DirectResult where
  success : Bool
  message : String
  details : Option String
  error : Option String
deriving DecidableEq

/-- `addDelegateDirectly`: lists delegates; only when the list call
succeeded does it apply the already-exists guard — if the list call
failed, the guard is skipped and the create call is issued anyway. -/
def addDelegateDirectly (env : OpEnv) (d : String) : DirectResult × List RemoteCall :=
  let (lr, lcs) := Route.listDelegates env
  if lr.success = true ∧ lr.delegates.isSome = true ∧
      (lr.delegates.getD []).any (fun x => x.delegateEmail == some d) = true then
    ({ success := false, message := "Delegate " ++ d ++ " already exists",
       details := none, error := none }, lcs)
  else
    match env.createErr with
    | none =>
      ({ success := true, message := "Delegate " ++ d ++ " added successfully",
         details := some "response", error := none },
       lcs ++ [.createCall (some d)])
    | some m =>
      ({ success := false, message := if m = "" then "Error adding delegate" else m,
         details := none, error := some m },
       lcs ++ [.createCall (some d)])

/-- `removeDelegateDirectly`: symmetric — when the list call failed, the
does-not-exist guard is skipped and the delete call is issued anyway. -/
def removeDelegateDirectly (env : OpEnv) (d : String) :
    DirectResult × List RemoteCall :=
  let (lr, lcs) := Route.listDelegates env
  if lr.success = true ∧ lr.delegates.isSome = true ∧
      (lr.delegates.getD []).any (fun x => x.delegateEmail == some d) = false then
    ({ success := false, message := "Delegate " ++ d ++ " does not exist",
       details := none, error := none }, lcs)
  else
    match env.deleteErr with
    | none =>
      ({ success := true, message := "Delegate " ++ d ++ " removed successfully",
         details := none, error := none },
       lcs ++ [.deleteCall (some d)])
    | some m =>
      ({ success := false, message := if m = "" then "Error removing delegate" else m,
         details := none, error := some m },
       lcs ++ [.deleteCall (some d)])

end DirectApi

/-! ## Helper lemmas and concrete fixtures -/

theorem createGmailClient_ok (env : OpEnv) (ht : env.tokenOk = true)
    (hp : env.profileOk = true) :
    GmailIntegration.createGmailClient env = (some (), [.getToken, .getProfile]) := by
  simp [GmailIntegration.createGmailClient, ht, hp]

theorem norm_email_eq (y : Delegate) (d : String)
    (h : (normDelegate y).delegateEmail = some d) : y.delegateEmail = some d := by
  cases hy : y.delegateEmail with
  | none => simp [normDelegate, normStr, hy] at h
  | some s =>
    simp only [normDelegate, normStr, hy] at h
    by_cases hs : s = ""
    · simp [hs] at h
    · simp [hs] at h
      rw [h]

theorem any_email_raw_false {ds : List Delegate} {d : String}
    (hab : ∀ x ∈ ds, x.delegateEmail ≠ some d) :
    ds.any (fun x => x.delegateEmail == some d) = false := by
  rw [List.any_eq_false]
  intro x hx
  simpa using hab x hx

theorem any_email_norm_false {ds : List Delegate} {d : String}
    (hab : ∀ x ∈ ds, x.delegateEmail ≠ some d) :
    (ds.map normDelegate).any (fun x => x.delegateEmail == some d) = false := by
  rw [List.any_eq_false]
  intro x hx
  rw [List.mem_map] at hx
  obtain ⟨y, hy, hxy⟩ := hx
  subst hxy
  simp only [beq_iff_eq]
  intro hcontra
  exact hab y hy (norm_email_eq y d hcontra)

theorem any_email_raw_true {ds : List Delegate} {d : String} (x : Delegate)
    (hx : x ∈ ds) (he : x.delegateEmail = some d) :
    ds.any (fun y => y.delegateEmail == some d) = true := by
  rw [List.any_eq_true]
  exact ⟨x, hx, by simp [he]⟩

theorem any_email_norm_true {ds : List Delegate} {d : String} (x : Delegate)
    (hx : x ∈ ds) (he : x.delegateEmail = some d) (hd : d ≠ "") :
    (ds.map normDelegate).any (fun y => y.delegateEmail == some d) = true := by
  rw [List.any_eq_true]
  refine ⟨normDelegate x, List.mem_map_of_mem normDelegate hx, ?_⟩
  simp [normDelegate, normStr, he, hd]

/-- An environment in which every remote primitive succeeds and the
mailbox currently has no delegates. -/
def envBase : OpEnv :=
  { saveErr := none, readErr := none, tokenOk := true, profileOk := true,
    listOutcome := .ok [], createErr := none, deleteErr := none,
    keyReadOk := true, paramsWriteErr := none, scriptLaunchErr := none }

/-- An environment in which every remote call fails (no token). -/
def envDown : OpEnv := { envBase with tokenOk := false }

/-- Hook options with service-account authentication available. -/
def optsSA : FormHandler.HandlerOptions :=
  { authMethod := "service-account", hasServiceAccountFile := true }

/-- A batch-mode form state over the given batch text. -/
def stBatch (b : String) : FormHandler.FormState :=
  { operation := "list", userEmail := "", delegateEmail := "", batchMode := true,
    batchEmails := b, showConfirmation := false }

/-! ## Claims -/

/-- Claim C1: for every input list of N delegation requests, batch
processing (`processBatchOperations` / `processBatch`) returns a result
list with exactly N entries, and the i-th result is exactly the outcome of
processing the i-th input request — for every environment, in particular
when every remote call fails; processing is never short-circuited. -/
theorem c1_batch_length_and_order (envs envs' : Nat → OpEnv)
    (ops : List GmailIntegration.BatchOp) (ops' : List FormHandler.BatchRequest)
    (hasSA : Bool) (i j : Nat) (hi : i < ops.length) (hj : j < ops'.length) :
    (GmailIntegration.processBatchOperations envs ops hasSA).1.length = ops.length ∧
    (Route.processBatch envs' ops').1.length = ops'.length ∧
    (GmailIntegration.processBatchOperations envs ops true).1[i]? =
      some ((GmailIntegration.processDelegateOperation (envs i)
        (ops.get ⟨i, hi⟩).operation (ops.get ⟨i, hi⟩).userEmail
        (ops.get ⟨i, hi⟩).delegateEmail true).1) ∧
    (Route.processBatch envs' ops').1[j]? =
      some ((Route.processOne (envs' j) (ops'.get ⟨j, hj⟩)).1) := by
  refine ⟨?_, ?_, ?_, ?_⟩
  · cases hasSA with
    | false => simp [GmailIntegration.processBatchOperations]
    | true =>
      simp [GmailIntegration.processBatchOperations,
        GmailIntegration.processBatchGo_length]
  · simp [Route.processBatch, Route.routeBatchGo_length]
  · have := GmailIntegration.processBatchGo_get envs ops 0 i hi
    simpa [GmailIntegration.processBatchOperations] using this
  · have := Route.routeBatchGo_get envs' ops' 0 j hj
    simpa [Route.processBatch] using this

/-- Witness for C1 at a concrete two-request batch, processed in an
environment in which every remote call fails. -/
theorem c1_witness :
    (GmailIntegration.processBatchOperations (fun _ => envDown)
      [{ operation := "add", userEmail := "a@b.c", delegateEmail := some "d@e.f" },
       { operation := "list", userEmail := "a@b.c", delegateEmail := none }]
      true).1.length = 2 ∧
    (Route.processBatch (fun _ => envDown)
      [{ operation := "remove", userEmail := some "a@b.c",
         delegateEmail := some "d@e.f" }]).1.length = 1 ∧
    (GmailIntegration.processBatchOperations (fun _ => envDown)
      [{ operation := "add", userEmail := "a@b.c", delegateEmail := some "d@e.f" },
       { operation := "list", userEmail := "a@b.c", delegateEmail := none }]
      true).1[1]? =
      some ((GmailIntegration.processDelegateOperation envDown "list" "a@b.c"
        none true).1) ∧
    (Route.processBatch (fun _ => envDown)
      [{ operation := "remove", userEmail := some "a@b.c",
         delegateEmail := some "d@e.f" }]).1[0]? =
      some ((Route.processOne envDown
        { operation := "remove", userEmail := some "a@b.c",
          delegateEmail := some "d@e.f" }).1) := by
  have h := c1_batch_length_and_order (fun _ => envDown) (fun _ => envDown)
    [{ operation := "add", userEmail := "a@b.c", delegateEmail := some "d@e.f" },
     { operation := "list", userEmail := "a@b.c", delegateEmail := none }]
    [{ operation := "remove", userEmail := some "a@b.c",
       delegateEmail := some "d@e.f" }]
    true 1 0 (by decide) (by decide)
  exact ⟨h.1, h.2.1, by simpa using h.2.2.1, by simpa using h.2.2.2⟩

/-- Claim C10: with no service-account file, `processBatchOperations`
returns one entry per input, each with `success = false` and message
"Service account file is required", and issues no remote call at all. -/
theorem c10_no_service_account (envs : Nat → OpEnv)
    (ops : List GmailIntegration.BatchOp) (i : Nat) (hi : i < ops.length) :
    (GmailIntegration.processBatchOperations envs ops false).1.length = ops.length ∧
    (GmailIntegration.processBatchOperations envs ops false).2 = [] ∧
    (GmailIntegration.processBatchOperations envs ops false).1[i]? =
      some { success := false, userEmail := some (ops.get ⟨i, hi⟩).userEmail,
             delegateEmail := (ops.get ⟨i, hi⟩).delegateEmail,
             operation := (ops.get ⟨i, hi⟩).operation,
             message := "Service account file is required",
             delegates := none, details := none } := by
  refine ⟨?_, ?_, ?_⟩
  · simp [GmailIntegration.processBatchOperations]
  · simp [GmailIntegration.processBatchOperations]
  · unfold GmailIntegration.processBatchOperations
    rw [if_pos rfl]
    rw [List.getElem?_map, List.getElem?_eq_getElem hi]
    simp [GmailIntegration.saMissingResult]

/-- Witness for C10 at a concrete two-request batch. -/
theorem c10_witness :
    (GmailIntegration.processBatchOperations (fun _ => envBase)
      [{ operation := "add", userEmail := "a@b.c", delegateEmail := some "d@e.f" },
       { operation := "remove", userEmail := "x@y.z", delegateEmail := some "d@e.f" }]
      false).1.length = 2 ∧
    (GmailIntegration.processBatchOperations (fun _ => envBase)
      [{ operation := "add", userEmail := "a@b.c", delegateEmail := some "d@e.f" },
       { operation := "remove", userEmail := "x@y.z", delegateEmail := some "d@e.f" }]
      false).2 = [] ∧
    (GmailIntegration.processBatchOperations (fun _ => envBase)
      [{ operation := "add", userEmail := "a@b.c", delegateEmail := some "d@e.f" },
       { operation := "remove", userEmail := "x@y.z", delegateEmail := some "d@e.f" }]
      false).1[0]? =
      some { success := false, userEmail := some "a@b.c",
             delegateEmail := some "d@e.f", operation := "add",
             message := "Service account file is required",
             delegates := none, details := none } := by
  have h := c10_no_service_account (fun _ => envBase)
    [{ operation := "add", userEmail := "a@b.c", delegateEmail := some "d@e.f" },
     { operation := "remove", userEmail := "x@y.z", delegateEmail := some "d@e.f" }]
    0 (by decide)
  exact ⟨h.1, h.2.1, by simpa using h.2.2⟩

/-- Claim C2 (as amended): in the direct Gmail-API implementations
(`processDelegateOperation` and `removeDelegateDirectly`), removing a
delegate that is absent from the pre-mutation list yields `success = false`
with the message "Delegate d does not exist" and issues no delete call;
the script-based route path also issues no delete call (the script skips),
but reports its outcome separately (see the counterexample). -/
theorem c2_remove_absent (env : OpEnv) (u d : String) (ds : List Delegate)
    (hsave : env.saveErr = none) (hread : env.readErr = none)
    (htok : env.tokenOk = true) (hprof : env.profileOk = true)
    (hlist : env.listOutcome = .ok ds)
    (hab : ∀ x ∈ ds, x.delegateEmail ≠ some d) :
    ((GmailIntegration.processDelegateOperation env "remove" u (some d)
      true).1.success = false) ∧
    ((GmailIntegration.processDelegateOperation env "remove" u (some d)
      true).1.message = "Delegate " ++ d ++ " does not exist") ∧
    (∀ c ∈ (GmailIntegration.processDelegateOperation env "remove" u (some d)
      true).2, c.isDelete = false) ∧
    ((DirectApi.removeDelegateDirectly env d).1.success = false) ∧
    ((DirectApi.removeDelegateDirectly env d).1.message =
      "Delegate " ++ d ++ " does not exist") ∧
    (∀ c ∈ (DirectApi.removeDelegateDirectly env d).2, c.isDelete = false) ∧
    (∀ c ∈ (Route.removeDelegate env (some u) (some d)).2, c.isDelete = false) := by
  have hcg := createGmailClient_ok env htok hprof
  have hnorm := any_email_norm_false hab
  have hraw := any_email_raw_false hab
  have hproc : (GmailIntegration.processDelegateOperation env "remove" u (some d)
      true).1.success = false ∧
      (GmailIntegration.processDelegateOperation env "remove" u (some d)
        true).1.message = "Delegate " ++ d ++ " does not exist" ∧
      ∀ c ∈ (GmailIntegration.processDelegateOperation env "remove" u (some d)
        true).2, c.isDelete = false := by
    rw [GmailIntegration.processDelegateOperation]
    simp only [hsave, hread, hcg, hlist]
    simp [GmailIntegration.listDelegates, hlist, hnorm, optStr,
      RemoteCall.isDelete]
  have hdir : (DirectApi.removeDelegateDirectly env d).1.success = false ∧
      (DirectApi.removeDelegateDirectly env d).1.message =
        "Delegate " ++ d ++ " does not exist" ∧
      ∀ c ∈ (DirectApi.removeDelegateDirectly env d).2, c.isDelete = false := by
    rw [DirectApi.removeDelegateDirectly]
    simp [Route.listDelegates, hlist, hraw, RemoteCall.isDelete]
  refine ⟨hproc.1, hproc.2.1, hproc.2.2, hdir.1, hdir.2.1, hdir.2.2, ?_⟩
  cases hpw : env.paramsWriteErr with
  | some m => simp [Route.removeDelegate, hpw]
  | none =>
    cases hsl : env.scriptLaunchErr with
    | some m => simp [Route.removeDelegate, hpw, hsl]
    | none =>
      cases hkr : env.keyReadOk with
      | false =>
        simp [Route.removeDelegate, hpw, hsl, Scripts.deleteScript, hkr]
      | true =>
        simp [Route.removeDelegate, hpw, hsl, Scripts.deleteScript, hkr, hcg,
          hlist, hnorm, RemoteCall.isDelete]

/-- Witness for C2 (amended) with an empty pre-mutation delegate list. -/
theorem c2_witness :
    ((GmailIntegration.processDelegateOperation envBase "remove" "shared@example.com"
      (some "user@example.com") true).1.success = false) ∧
    ((GmailIntegration.processDelegateOperation envBase "remove" "shared@example.com"
      (some "user@example.com") true).1.message =
      "Delegate user@example.com does not exist") ∧
    ((DirectApi.removeDelegateDirectly envBase "user@example.com").1.success
      = false) := by
  have h := c2_remove_absent envBase "shared@example.com" "user@example.com" []
    rfl rfl rfl rfl rfl (by simp)
  exact ⟨h.1, h.2.1, h.2.2.2.1⟩

set_option maxRecDepth 4096 in
/-- Counterexample to C2 as stated: through the script-based route path,
`Remove` on an absent delegate reports `success = true` with a "removed
successfully" message (the script logs "does not exist ... Skipping",
stdout contains no "Error", so the route's substring check declares
success), even though no delete call was issued. -/
theorem c2_counterexample :
    ((Route.removeDelegate envBase (some "shared@example.com")
      (some "user@example.com")).1.success = true) ∧
    ((Route.removeDelegate envBase (some "shared@example.com")
      (some "user@example.com")).1.message =
      "Delegate user@example.com removed successfully from shared@example.com.") ∧
    ((Route.removeDelegate envBase (some "shared@example.com")
      (some "user@example.com")).2.any (fun c => c.isDelete) = false) := by
  decide

/-- Claim C3 (as amended): in the direct Gmail-API implementations
(`processDelegateOperation` and `addDelegateDirectly`), adding a delegate
already present in the pre-mutation list yields `success = false` with the
message "Delegate d already exists" and issues no create call; the
script-based route path also issues no create call (the script skips),
but reports its outcome separately (see the counterexample). -/
theorem c3_add_existing (env : OpEnv) (u d : String) (ds : List Delegate)
    (x : Delegate) (hx : x ∈ ds) (he : x.delegateEmail = some d) (hd : d ≠ "")
    (hsave : env.saveErr = none) (hread : env.readErr = none)
    (htok : env.tokenOk = true) (hprof : env.profileOk = true)
    (hlist : env.listOutcome = .ok ds) :
    ((GmailIntegration.processDelegateOperation env "add" u (some d)
      true).1.success = false) ∧
    ((GmailIntegration.processDelegateOperation env "add" u (some d)
      true).1.message = "Delegate " ++ d ++ " already exists") ∧
    (∀ c ∈ (GmailIntegration.processDelegateOperation env "add" u (some d)
      true).2, c.isCreate = false) ∧
    ((DirectApi.addDelegateDirectly env d).1.success = false) ∧
    ((DirectApi.addDelegateDirectly env d).1.message =
      "Delegate " ++ d ++ " already exists") ∧
    (∀ c ∈ (DirectApi.addDelegateDirectly env d).2, c.isCreate = false) ∧
    (∀ c ∈ (Route.addDelegate env (some u) (some d)).2, c.isCreate = false) := by
  have hcg := createGmailClient_ok env htok hprof
  have hnorm := any_email_norm_true x hx he hd
  have hraw := any_email_raw_true x hx he
  have hproc : (GmailIntegration.processDelegateOperation env "add" u (some d)
      true).1.success = false ∧
      (GmailIntegration.processDelegateOperation env "add" u (some d)
        true).1.message = "Delegate " ++ d ++ " already exists" ∧
      ∀ c ∈ (GmailIntegration.processDelegateOperation env "add" u (some d)
        true).2, c.isCreate = false := by
    rw [GmailIntegration.processDelegateOperation]
    simp only [hsave, hread, hcg, hlist]
    simp [GmailIntegration.listDelegates, hlist, hnorm, optStr,
      RemoteCall.isCreate]
  have hdir : (DirectApi.addDelegateDirectly env d).1.success = false ∧
      (DirectApi.addDelegateDirectly env d).1.message =
        "Delegate " ++ d ++ " already exists" ∧
      ∀ c ∈ (DirectApi.addDelegateDirectly env d).2, c.isCreate = false := by
    rw [DirectApi.addDelegateDirectly]
    simp [Route.listDelegates, hlist, hraw, RemoteCall.isCreate]
  refine ⟨hproc.1, hproc.2.1, hproc.2.2, hdir.1, hdir.2.1, hdir.2.2, ?_⟩
  cases hpw : env.paramsWriteErr with
  | some m => simp [Route.addDelegate, hpw]
  | none =>
    cases hsl : env.scriptLaunchErr with
    | some m => simp [Route.addDelegate, hpw, hsl]
    | none =>
      cases hkr : env.keyReadOk with
      | false =>
        simp [Route.addDelegate, hpw, hsl, Scripts.addScript, hkr]
      | true =>
        simp [Route.addDelegate, hpw, hsl, Scripts.addScript, hkr, hcg,
          hlist, hnorm, RemoteCall.isCreate]

/-- Witness for C3 (amended) with a one-element pre-mutation delegate list
containing the delegate being added. -/
theorem c3_witness :
    ((GmailIntegration.processDelegateOperation
      { envBase with listOutcome := .ok [{ delegateEmail := some "user@example.com",
                                           verificationStatus := none }] }
      "add" "shared@example.com" (some "user@example.com") true).1.success = false) ∧
    ((GmailIntegration.processDelegateOperation
      { envBase with listOutcome := .ok [{ delegateEmail := some "user@example.com",
                                           verificationStatus := none }] }
      "add" "shared@example.com" (some "user@example.com") true).1.message =
      "Delegate user@example.com already exists") ∧
    ((DirectApi.addDelegateDirectly
      { envBase with listOutcome := .ok [{ delegateEmail := some "user@example.com",
                                           verificationStatus := none }] }
      "user@example.com").1.success = false) := by
  have h := c3_add_existing
    { envBase with listOutcome := .ok [{ delegateEmail := some "user@example.com",
                                         verificationStatus := none }] }
    "shared@example.com" "user@example.com"
    [{ delegateEmail := some "user@example.com", verificationStatus := none }]
    { delegateEmail := some "user@example.com", verificationStatus := none }
    (by simp) rfl (by decide) rfl rfl rfl rfl rfl
  exact ⟨h.1, h.2.1, h.2.2.2.1⟩

set_option maxRecDepth 4096 in
/-- Counterexample to C3 as stated: through the script-based route path,
`Add` on an already-present delegate reports `success = true` with an
"added successfully" message (the script logs "already exists ...
Skipping", stdout contains no "Error", so the route's substring check
declares success), even though no create call was issued. -/
theorem c3_counterexample :
    ((Route.addDelegate
      { envBase with listOutcome := .ok [{ delegateEmail := some "user@example.com",
                                           verificationStatus := none }] }
      (some "shared@example.com") (some "user@example.com")).1.success = true) ∧
    ((Route.addDelegate
      { envBase with listOutcome := .ok [{ delegateEmail := some "user@example.com",
                                           verificationStatus := none }] }
      (some "shared@example.com") (some "user@example.com")).1.message =
      "Delegate user@example.com added successfully to shared@example.com.") ∧
    ((Route.addDelegate
      { envBase with listOutcome := .ok [{ delegateEmail := some "user@example.com",
                                           verificationStatus := none }] }
      (some "shared@example.com") (some "user@example.com")).2.any
        (fun c => c.isCreate) = false) := by
  decide

/-- Claim C7 (as amended): only `processDelegateOperation` short-circuits
when the pre-mutation list call fails — it returns the failed list result
unchanged (success = false, carrying the list error message, with
`operation = "list"` rather than the requested add/remove, which makes it
distinguishable from the idempotency outcomes) and issues no mutating
call.  The direct-API variants do not enjoy this property (see the
counterexample). -/
theorem c7_list_failure (env : OpEnv) (u d op m : String)
    (hop : op = "add" ∨ op = "remove")
    (hsave : env.saveErr = none) (hread : env.readErr = none)
    (htok : env.tokenOk = true) (hprof : env.profileOk = true)
    (hlist : env.listOutcome = .err m) :
    ((GmailIntegration.processDelegateOperation env op u (some d)
      true).1.success = false) ∧
    ((GmailIntegration.processDelegateOperation env op u (some d)
      true).1.operation = "list") ∧
    ((GmailIntegration.processDelegateOperation env op u (some d)
      true).1.message = (if m = "" then "Error listing delegates" else m)) ∧
    (∀ c ∈ (GmailIntegration.processDelegateOperation env op u (some d)
      true).2, c.isMutating = false) := by
  have hcg := createGmailClient_ok env htok hprof
  have hopl : op ≠ "list" := by
    rcases hop with h | h <;> rw [h] <;> decide
  rw [GmailIntegration.processDelegateOperation]
  simp only [hsave, hread, hcg, hlist]
  simp [GmailIntegration.listDelegates, hlist, hopl, RemoteCall.isMutating]

/-- Witness for C7 (amended) at a concrete failing list call. -/
theorem c7_witness :
    ((GmailIntegration.processDelegateOperation
      { envBase with listOutcome := .err "network timeout" }
      "add" "shared@example.com" (some "user@example.com") true).1.success = false) ∧
    ((GmailIntegration.processDelegateOperation
      { envBase with listOutcome := .err "network timeout" }
      "add" "shared@example.com" (some "user@example.com") true).1.operation
      = "list") ∧
    ((GmailIntegration.processDelegateOperation
      { envBase with listOutcome := .err "network timeout" }
      "add" "shared@example.com" (some "user@example.com") true).1.message
      = "network timeout") := by
  have h := c7_list_failure
    { envBase with listOutcome := .err "network timeout" }
    "shared@example.com" "user@example.com" "add" "network timeout"
    (Or.inl rfl) rfl rfl rfl rfl rfl
  refine ⟨h.1, h.2.1, ?_⟩
  have h3 := h.2.2.1
  simpa using h3

/-- Counterexample to C7 as stated: in `addDelegateDirectly` a failed
pre-mutation list call does not prevent the mutation — the existence guard
is skipped and the create call is issued anyway (here it even succeeds,
so the result is not a failure at all). -/
theorem c7_counterexample :
    ((DirectApi.addDelegateDirectly
      { envBase with listOutcome := .err "network timeout" }
      "user@example.com").2.any (fun c => c.isCreate) = true) ∧
    ((DirectApi.addDelegateDirectly
      { envBase with listOutcome := .err "network timeout" }
      "user@example.com").1.success = true) ∧
    ((DirectApi.removeDelegateDirectly
      { envBase with listOutcome := .err "network timeout" }
      "user@example.com").2.any (fun c => c.isDelete) = true) := by
  decide

/-- Claim C8 (as amended): the utils `createGmailClient` detects an
unusable credential eagerly — a failed token acquisition or profile probe
makes construction return `null` after issuing only non-mutating probe
calls.  The route's own `createGmailClient` performs no probe at all:
construction succeeds regardless of credential validity (see the
counterexample). -/
theorem c8_eager_probe (env : OpEnv)
    (h : env.tokenOk = false ∨ env.profileOk = false) :
    ((GmailIntegration.createGmailClient env).1 = none) ∧
    (∀ c ∈ (GmailIntegration.createGmailClient env).2, c.isMutating = false) := by
  constructor
  · rcases h with h | h
    · simp [GmailIntegration.createGmailClient, h]
    · cases ht : env.tokenOk <;>
        simp [GmailIntegration.createGmailClient, h, ht]
  · intro c hc
    cases ht : env.tokenOk with
    | false =>
      simp [GmailIntegration.createGmailClient, ht] at hc
      subst hc; rfl
    | true =>
      cases hp : env.profileOk with
      | false =>
        simp [GmailIntegration.createGmailClient, ht, hp] at hc
        rcases hc with h1 | h1 <;> subst h1 <;> rfl
      | true =>
        simp [GmailIntegration.createGmailClient, ht, hp] at hc
        rcases hc with h1 | h1 <;> subst h1 <;> rfl

/-- Witness for C8 (amended) at a credential whose token acquisition fails. -/
theorem c8_witness :
    ((GmailIntegration.createGmailClient envDown).1 = none) ∧
    ((GmailIntegration.createGmailClient envDown).2.any
      (fun c => c.isMutating) = false) := by
  have h := c8_eager_probe envDown (Or.inl rfl)
  refine ⟨h.1, ?_⟩
  rw [List.any_eq_false]
  intro c hc
  simp [h.2 c hc]

/-- Counterexample to C8 as stated: the route's `createGmailClient`
succeeds (returns a non-null client) for a credential that cannot be
authenticated (token acquisition would fail), issuing no identity probe —
the failure is deferred to the first actual call rather than surfacing at
construction. -/
theorem c8_counterexample :
    ((Route.createGmailClient envDown).1.isSome = true) ∧
    ((Route.createGmailClient envDown).2 = []) ∧
    (envDown.tokenOk = false) := by
  decide

/-- Claim C9 (as amended): in the direct Gmail-API implementation
(`processDelegateOperation`) the success field is determined structurally —
once the guard passes, an add succeeds exactly when the remote create call
succeeds, and a remove exactly when the remote delete call succeeds.  In
the script-based route handlers, by contrast, success IS the absence of
the literal substring "Error" in the captured stdout of the generated
script (see the counterexample). -/
theorem c9_structured_success (env env' : OpEnv) (u d u' d' : String)
    (ds ds' : List Delegate)
    (hsave : env.saveErr = none) (hread : env.readErr = none)
    (htok : env.tokenOk = true) (hprof : env.profileOk = true)
    (hlist : env.listOutcome = .ok ds)
    (hab : ∀ x ∈ ds, x.delegateEmail ≠ some d)
    (x : Delegate) (hx : x ∈ ds') (he : x.delegateEmail = some d') (hd : d' ≠ "")
    (hsave' : env'.saveErr = none) (hread' : env'.readErr = none)
    (htok' : env'.tokenOk = true) (hprof' : env'.profileOk = true)
    (hlist' : env'.listOutcome = .ok ds') :
    ((GmailIntegration.processDelegateOperation env "add" u (some d)
      true).1.success = (env.createErr == none)) ∧
    ((GmailIntegration.processDelegateOperation env' "remove" u' (some d')
      true).1.success = (env'.deleteErr == none)) ∧
    (∀ (v w : String) (run : Scripts.ScriptRun), run.stderr = [] →
      (Route.addScriptOutcome v w run).success =
        !(Route.outputHas "Error" run.stdout)) ∧
    (∀ (v w : String) (run : Scripts.ScriptRun), run.stderr = [] →
      (Route.removeScriptOutcome v w run).success =
        !(Route.outputHas "Error" run.stdout)) := by
  have hcg := createGmailClient_ok env htok hprof
  have hcg' := createGmailClient_ok env' htok' hprof'
  have hnorm := any_email_norm_false hab
  have hnorm' := any_email_norm_true x hx he hd
  refine ⟨?_, ?_, ?_, ?_⟩
  · rw [GmailIntegration.processDelegateOperation]
    simp only [hsave, hread, hcg, hlist]
    cases hce : env.createErr <;>
      simp [GmailIntegration.listDelegates, hlist, hnorm, hce,
        GmailIntegration.catchResult]
  · rw [GmailIntegration.processDelegateOperation]
    simp only [hsave', hread', hcg', hlist']
    cases hde : env'.deleteErr <;>
      simp [GmailIntegration.listDelegates, hlist', hnorm', hde,
        GmailIntegration.catchResult]
  · intro v w run hrun
    simp [Route.addScriptOutcome, hrun]
  · intro v w run hrun
    simp [Route.removeScriptOutcome, hrun]

/-- An environment whose mailbox already has user@example.com delegated. -/
def envPresent : OpEnv :=
  { envBase with listOutcome := .ok [{ delegateEmail := some "user@example.com",
                                       verificationStatus := none }] }

/-- Witness for C9 (amended) at a concrete add and remove. -/
theorem c9_witness :
    ((GmailIntegration.processDelegateOperation envBase "add" "shared@example.com"
      (some "user@example.com") true).1.success = (envBase.createErr == none)) ∧
    ((GmailIntegration.processDelegateOperation envPresent
      "remove" "shared@example.com" (some "user@example.com") true).1.success =
      (envPresent.deleteErr == none)) ∧
    ((Route.addScriptOutcome "shared@example.com" "user@example.com"
      { stdout := ["ok"], stderr := [], calls := [] }).success =
      !(Route.outputHas "Error" ["ok"])) := by
  have h := c9_structured_success envBase envPresent
    "shared@example.com" "user@example.com" "shared@example.com" "user@example.com"
    [] [{ delegateEmail := some "user@example.com", verificationStatus := none }]
    rfl rfl rfl rfl rfl (by simp)
    { delegateEmail := some "user@example.com", verificationStatus := none }
    (by simp) rfl (by decide) rfl rfl rfl rfl rfl
  exact ⟨h.1, h.2.1, h.2.2.1 "shared@example.com" "user@example.com"
    { stdout := ["ok"], stderr := [], calls := [] } rfl⟩

set_option maxRecDepth 8192 in
/-- Counterexample to C9 as stated: for the delegate address
"Error@example.com" the script performs the create call and it succeeds
(`createErr = none`), yet the route's `addDelegate` reports
`success = false` — the success field was computed by substring-matching
the literal word "Error" in the script's stdout (which here contains the
delegate address), not from the structured outcome of the Delegation
Client. -/
theorem c9_counterexample :
    ((Route.addDelegate envBase (some "user@example.com")
      (some "Error@example.com")).1.success = false) ∧
    ((Route.addDelegate envBase (some "user@example.com")
      (some "Error@example.com")).2.any (fun c => c.isCreate) = true) ∧
    (envBase.createErr = none) := by
  decide

theorem processOne_invalid (env : OpEnv) (op : FormHandler.BatchRequest)
    (h1 : op.operation ≠ "list") (h2 : op.operation ≠ "add")
    (h3 : op.operation ≠ "remove") :
    Route.processOne env op = (Route.invalidOpResult op, []) := by
  simp [Route.processOne, h1, h2, h3]

/-- Claim C4 (as amended): parsing never fails — `parseBatchOperations` is
total and yields exactly one request per non-blank line, whatever the
line's field count or kind (the raw first field becomes the kind, missing
fields become undefined, extra fields are dropped).  A request whose kind
is not add/remove/list is rejected per-line at execution time with an
"Invalid operation" failure entry, while the remaining requests of the
batch still execute (see the counterexample). -/
theorem c4_parser_total (b : String) (envs : Nat → OpEnv) (i : Nat)
    (hi : i < (FormHandler.parseBatchOperations b).length)
    (h1 : ((FormHandler.parseBatchOperations b).get ⟨i, hi⟩).operation ≠ "add")
    (h2 : ((FormHandler.parseBatchOperations b).get ⟨i, hi⟩).operation ≠ "remove")
    (h3 : ((FormHandler.parseBatchOperations b).get ⟨i, hi⟩).operation ≠ "list") :
    (FormHandler.parseBatchOperations b).length =
      ((splitChar '\n' b.data).filter
        (fun l => (trimChars l).isEmpty = false)).length ∧
    (Route.processBatch envs (FormHandler.parseBatchOperations b)).1.length =
      (FormHandler.parseBatchOperations b).length ∧
    (Route.processBatch envs (FormHandler.parseBatchOperations b)).1[i]? =
      some (Route.invalidOpResult
        ((FormHandler.parseBatchOperations b).get ⟨i, hi⟩)) := by
  refine ⟨?_, ?_, ?_⟩
  · simp [FormHandler.parseBatchOperations]
  · simp [Route.processBatch, Route.routeBatchGo_length]
  · have := Route.routeBatchGo_get envs (FormHandler.parseBatchOperations b) 0 i hi
    rw [Route.processBatch, this,
      processOne_invalid (envs (0 + i)) _ h3 h1 h2]

/-- Witness for C4 (amended) at the spec's own malformed line. -/
theorem c4_witness :
    (FormHandler.parseBatchOperations
      "addshared@example.com,user@example.com").length =
      ((splitChar '\n' "addshared@example.com,user@example.com".data).filter
        (fun l => (trimChars l).isEmpty = false)).length ∧
    (Route.processBatch (fun _ => envBase)
      (FormHandler.parseBatchOperations
        "addshared@example.com,user@example.com")).1[0]? =
      some (Route.invalidOpResult
        { operation := "addshared@example.com",
          userEmail := some "user@example.com", delegateEmail := none }) := by
  have h := c4_parser_total "addshared@example.com,user@example.com"
    (fun _ => envBase) 0 (by decide) (by decide) (by decide) (by decide)
  refine ⟨h.1, ?_⟩
  have h3 := h.2.2
  convert h3 using 3

set_option maxRecDepth 8192 in
/-- Counterexample to C4 as stated: the spec's own malformed line
`"addshared@example.com,user@example.com"` does not produce a `ParseError`
— it parses successfully into a request whose kind is the whole malformed
first field; and in a batch pairing that line with a well-formed `list`
request, the `list` request is still executed (its result is produced and
a remote list call is issued), so execution is per-line rather than
all-or-nothing. -/
theorem c4_counterexample :
    (FormHandler.parseBatchOperations "addshared@example.com,user@example.com" =
      [{ operation := "addshared@example.com",
         userEmail := some "user@example.com", delegateEmail := none }]) ∧
    ((Route.processBatch (fun _ => envBase)
      (FormHandler.parseBatchOperations
        "addshared@example.com,user@example.com\nlist,shared@example.com")).1.length
      = 2) ∧
    ((Route.processBatch (fun _ => envBase)
      (FormHandler.parseBatchOperations
        "addshared@example.com,user@example.com\nlist,shared@example.com")).1[1]? =
      some { success := true, userEmail := some "shared@example.com",
             delegateEmail := none, operation := "list",
             message := some "Delegates retrieved successfully",
             delegates := some [], rawOutput := none, error := none }) ∧
    ((Route.processBatch (fun _ => envBase)
      (FormHandler.parseBatchOperations
        "addshared@example.com,user@example.com\nlist,shared@example.com")).2 =
      [RemoteCall.listCall]) := by
  decide

/-- Claim C5: for a service-account-authenticated batch submission whose
parsed requests contain at least one Remove, `handleSubmit` with the
confirmation flag false returns `awaitingConfirmation` (control returns to
the caller, nothing is handed to `onSubmit`, so zero remote calls are
issued), and the same batch resubmitted with the flag true is submitted
with exactly the parsed operations, to be executed by the batch processor. -/
theorem c5_confirmation_gating (opts : FormHandler.HandlerOptions)
    (st : FormHandler.FormState)
    (hauth : opts.authMethod = "service-account")
    (hfile : opts.hasServiceAccountFile = true)
    (hbatch : st.batchMode = true)
    (hrem : ∃ r ∈ FormHandler.parseBatchOperations st.batchEmails,
      r.operation = "remove") :
    FormHandler.handleSubmit opts { st with showConfirmation := false } =
      FormHandler.SubmitOutcome.awaitingConfirmation ∧
    FormHandler.handleSubmit opts { st with showConfirmation := true } =
      FormHandler.SubmitOutcome.submitted
        { authMethod := opts.authMethod, operation := st.operation,
          operations := some (FormHandler.parseBatchOperations st.batchEmails),
          userEmail := none, delegateEmail := none } := by
  obtain ⟨r, hr, hop⟩ := hrem
  have hsub := FormHandler.parse_remove_includes st.batchEmails r hr hop
  have hnb := FormHandler.parse_remove_not_blank st.batchEmails r hr hop
  have hne : ¬ (opts.authMethod = "") := by rw [hauth]; decide
  constructor
  · rw [FormHandler.handleSubmit]
    rw [if_neg hne]
    rw [if_neg (by simp [hbatch])]
    rw [if_neg (by simp [hbatch])]
    rw [if_neg (by simp [hbatch, hnb])]
    rw [if_pos ⟨Or.inr ⟨hbatch, hsub⟩, rfl⟩]
  · rw [FormHandler.handleSubmit]
    rw [if_neg hne]
    rw [if_neg (by simp [hbatch])]
    rw [if_neg (by simp [hbatch])]
    rw [if_neg (by simp [hbatch, hnb])]
    rw [if_neg (by simp)]
    rw [if_pos ⟨hauth, hfile⟩]
    rw [if_pos hbatch]

/-- Witness for C5 at a concrete batch with one remove line. -/
theorem c5_witness :
    (∃ r ∈ FormHandler.parseBatchOperations "remove,shared@example.com,user@example.com",
      r.operation = "remove") ∧
    FormHandler.handleSubmit optsSA
      { stBatch "remove,shared@example.com,user@example.com" with
        showConfirmation := false } =
      FormHandler.SubmitOutcome.awaitingConfirmation ∧
    FormHandler.handleSubmit optsSA
      { stBatch "remove,shared@example.com,user@example.com" with
        showConfirmation := true } =
      FormHandler.SubmitOutcome.submitted
        { authMethod := "service-account", operation := "list",
          operations := some (FormHandler.parseBatchOperations
            "remove,shared@example.com,user@example.com"),
          userEmail := none, delegateEmail := none } := by
  have hrem : ∃ r ∈ FormHandler.parseBatchOperations
      "remove,shared@example.com,user@example.com", r.operation = "remove" := by
    decide
  have h := c5_confirmation_gating optsSA
    (stBatch "remove,shared@example.com,user@example.com") rfl rfl rfl hrem
  exact ⟨hrem, h.1, h.2⟩

/-- Claim C6 (as amended): the gate's decision is a deterministic function
of the raw batch text (a substring search for "remove"), the operation
radio state and the persisted `showConfirmation` flag — not of the parsed
request set: a raw-text batch containing "remove" submitted with the flag
false enters `awaitingConfirmation`, while any submission with the flag
already true can never re-enter `awaitingConfirmation`, even if the batch
text was edited in between (so an edited batch executes without fresh
confirmation; and two texts with identical parsed requests can be gated
differently — see the counterexample). -/
theorem c6_gate_raw_text (opts : FormHandler.HandlerOptions)
    (st : FormHandler.FormState)
    (hauth : ¬ (opts.authMethod = "")) (hbatch : st.batchMode = true)
    (hnb : (trimChars st.batchEmails.data).isEmpty = false)
    (hsub : containsSub "remove" st.batchEmails = true)
    (hconf : st.showConfirmation = false) :
    (FormHandler.handleSubmit opts st =
      FormHandler.SubmitOutcome.awaitingConfirmation) ∧
    (∀ (opts' : FormHandler.HandlerOptions) (st' : FormHandler.FormState),
      st'.showConfirmation = true →
      FormHandler.handleSubmit opts' st' ≠
        FormHandler.SubmitOutcome.awaitingConfirmation) := by
  constructor
  · rw [FormHandler.handleSubmit]
    rw [if_neg hauth]
    rw [if_neg (by simp [hbatch])]
    rw [if_neg (by simp [hbatch])]
    rw [if_neg (by simp [hbatch, hnb])]
    rw [if_pos ⟨Or.inr ⟨hbatch, hsub⟩, hconf⟩]
  · intro opts' st' hconf' hcontra
    rw [FormHandler.handleSubmit] at hcontra
    split_ifs at hcontra
    simp_all

/-- Witness for C6 (amended) at a concrete remove batch. -/
theorem c6_witness :
    (FormHandler.handleSubmit optsSA
      (stBatch "remove,shared@example.com,user@example.com") =
      FormHandler.SubmitOutcome.awaitingConfirmation) ∧
    FormHandler.handleSubmit optsSA
      { stBatch "edited,shared@example.com,other@example.com" with
        showConfirmation := true } ≠
      FormHandler.SubmitOutcome.awaitingConfirmation := by
  have h := c6_gate_raw_text optsSA
    (stBatch "remove,shared@example.com,user@example.com")
    (by decide) rfl (by decide) (by decide) rfl
  exact ⟨h.1, h.2 optsSA
    { stBatch "edited,shared@example.com,other@example.com" with
      showConfirmation := true } rfl⟩

set_option maxRecDepth 8192 in
/-- Counterexample to C6 as stated: (i) two batch texts with identical
parsed request sets (the second merely drops a spurious fourth field
"remove", which the parser discards) and the same confirmation flag get
different gate decisions — the first awaits confirmation, the second
executes; (ii) after the flag has been set by a first submission, a batch
edited to different requests is executed directly instead of re-entering
`awaitingConfirmation`.  The gate is therefore neither a pure predicate
over the parsed request set plus the flag, nor does an edited batch
re-enter `awaitingConfirmation`. -/
theorem c6_counterexample :
    (FormHandler.parseBatchOperations "add,u@e.com,d@e.com,remove" =
      FormHandler.parseBatchOperations "add,u@e.com,d@e.com") ∧
    (FormHandler.handleSubmit optsSA (stBatch "add,u@e.com,d@e.com,remove") =
      FormHandler.SubmitOutcome.awaitingConfirmation) ∧
    (FormHandler.handleSubmit optsSA (stBatch "add,u@e.com,d@e.com") =
      FormHandler.SubmitOutcome.submitted
        { authMethod := "service-account", operation := "list",
          operations := some
            (FormHandler.parseBatchOperations "add,u@e.com,d@e.com"),
          userEmail := none, delegateEmail := none }) ∧
    (FormHandler.handleSubmit optsSA
      { stBatch "remove,u@e.com,edited@e.com" with showConfirmation := true } =
      FormHandler.SubmitOutcome.submitted
        { authMethod := "service-account", operation := "list",
          operations := some
            (FormHandler.parseBatchOperations "remove,u@e.com,edited@e.com"),
          userEmail := none, delegateEmail := none }) := by
  decide
